import Mathlib

/-
Verification development for the checkout-js repository.

Shallow embedding of:
  * src/unnamed/part_000   — CustomPaymentMethod and DellPaymentMethod classes
  * src/assets/js/checkout.js — registration of the 'custom-payment' method
  * src/unnamed/part_001   — the Express router and its handlers
  * src/packages/core/src/app/checkout/Checkout.tsx — the Checkout component's
    step navigation and logOrderDetailsAndNavigate

Modelling conventions:
  * JavaScript values that may be `undefined`/`null` are modelled as `Option`.
  * JavaScript string truthiness (undefined, null and "" are falsy) is
    captured by `jsTruthyStrOpt`; `a || b` on strings by `jsOrStr`.
  * Promise outcomes are `PromiseResult` (resolved value / rejection message).
  * Class methods are modelled as state transformers returning the promise
    outcome together with the (possibly updated) instance, so that frame
    properties ("state unchanged") are expressible.
  * DOM reads performed by a method are passed in explicitly (`DellDom`).
  * Side effects of the Checkout component (console, analytics tracking,
    clearError, HTTP, navigation, form submission) are recorded in an
    explicit `Effect` trace.
  * JS numbers appearing only via `.toString()` in the code (cart amounts,
    quantities, Date.now()) are modelled as `Nat` rendered with `toString`;
    no claim depends on their numeric semantics.
-/

/-- Truthiness of an optional JavaScript string: `undefined`/`null` and the
empty string are falsy, every other string is truthy. -/
def jsTruthyStrOpt : Option String → Bool
  | some s => decide (s ≠ "")
  | none => false

/-- JavaScript `s || dflt` for an optional string `s`: returns `dflt` when
`s` is `undefined`/`null` or empty, and the string otherwise. -/
def jsOrStr : Option String → String → String
  | some s, dflt => if s = "" then dflt else s
  | none, dflt => dflt

/-- Outcome of a JavaScript `Promise`: either resolved with a value or
rejected with an `Error` whose message is recorded. -/
inductive PromiseResult (α : Type) where
  | resolved (value : α)
  | rejected (message : String)
deriving DecidableEq, Repr

/-- The options object passed to the payment-method constructors.  The
classes in part_000 only store it; none of its fields are ever read, so it
is modelled as an empty structure. -/
structure PaymentOptions
deriving DecidableEq, Repr

/-! ## CustomPaymentMethod (src/unnamed/part_000, lines 1-79) -/

/-- Mirror of `this.state` of `CustomPaymentMethod`. -/
structure CustomPaymentState where
  method : String
  customerId : Option String
  paymentData : Option String
deriving DecidableEq, Repr

/-- Mirror of a `CustomPaymentMethod` instance. -/
structure CustomPaymentMethod where
  options : PaymentOptions
  state : CustomPaymentState
  clientId : String
deriving DecidableEq, Repr

/-- The constructor: `this.options = options || {}`, state starts with
`method: 'custom-payment'`, `customerId: null`, `paymentData: null`. -/
def CustomPaymentMethod.make (options : Option PaymentOptions) : CustomPaymentMethod :=
  { options := options.getD PaymentOptions.mk
    state := { method := "custom-payment", customerId := none, paymentData := none }
    clientId := "YOUR_APP_CLIENT_ID" }

/-- `validatePayment` (part_000 lines 50-59): resolves when
`this.state.paymentData && this.state.paymentData.length > 0`, otherwise
rejects.  The method never writes `this.state`, so the instance is returned
unchanged. -/
def CustomPaymentMethod.validatePayment (m : CustomPaymentMethod) :
    PromiseResult Unit × CustomPaymentMethod :=
  match m.state.paymentData with
  | some s =>
      if 0 < s.length then
        (PromiseResult.resolved (), m)
      else
        (PromiseResult.rejected "Payment validation failed. Please enter valid payment details.", m)
  | none =>
      (PromiseResult.rejected "Payment validation failed. Please enter valid payment details.", m)

/-- The object resolved by `CustomPaymentMethod.submitPayment`. -/
structure CustomSubmitResult where
  type : String
  paymentData : String
deriving DecidableEq, Repr

/-- `submitPayment` (part_000 lines 62-78): after the simulated delay,
resolves when `this.state.paymentData` is truthy (a non-null, non-empty
string) and rejects otherwise.  No state is written. -/
def CustomPaymentMethod.submitPayment (m : CustomPaymentMethod) :
    PromiseResult CustomSubmitResult × CustomPaymentMethod :=
  match m.state.paymentData with
  | some s =>
      if s = "" then
        (PromiseResult.rejected "Payment submission failed. No payment data provided.", m)
      else
        (PromiseResult.resolved { type := "custom-payment", paymentData := s }, m)
  | none =>
      (PromiseResult.rejected "Payment submission failed. No payment data provided.", m)

/-! ## Registration (src/assets/js/checkout.js) -/

/-- The `payment` argument the checkout SDK passes to the registered hooks.
Both registered hooks ignore it entirely, so it is opaque here. -/
structure Payment
deriving DecidableEq, Repr

/-- The record passed to `window.checkout.registerPaymentMethod`.  The
`initializePayment` hook builds a DOM form and is outside the claims'
scope; the two hooks under scrutiny are modelled. -/
structure RegisteredPaymentMethod where
  id : String
  type : String
  validatePayment : Payment → PromiseResult Unit
  submitPayment : Payment → PromiseResult CustomSubmitResult

/-- The registration performed in checkout.js lines 9-24: `validatePayment`
and `submitPayment` each construct a fresh `new CustomPaymentMethod()`
(no arguments) and call the corresponding method on it. -/
def registeredCustomPaymentMethod : RegisteredPaymentMethod :=
  { id := "custom-payment"
    type := "custom-payment"
    validatePayment := fun _payment => ((CustomPaymentMethod.make none).validatePayment).1
    submitPayment := fun _payment => ((CustomPaymentMethod.make none).submitPayment).1 }

/-! ## DellPaymentMethod (src/unnamed/part_000, lines 81-168) -/

/-- The object stored into `this.state.paymentData` by
`DellPaymentMethod.validatePayment`. -/
structure DellPaymentData where
  accountNumber : String
  poNumber : String
deriving DecidableEq, Repr

/-- Mirror of `this.state` of `DellPaymentMethod`. -/
structure DellPaymentState where
  method : String
  customerId : Option String
  paymentData : Option DellPaymentData
  methodId : String
  gateway : String
deriving DecidableEq, Repr

/-- Mirror of a `DellPaymentMethod` instance. -/
structure DellPaymentMethod where
  options : PaymentOptions
  state : DellPaymentState
deriving DecidableEq, Repr

/-- The `DellPaymentMethod` constructor. -/
def DellPaymentMethod.make (options : Option PaymentOptions) : DellPaymentMethod :=
  { options := options.getD PaymentOptions.mk
    state := { method := "dell-payment", customerId := none, paymentData := none,
               methodId := "dell_payment", gateway := "dell_payment_gateway" } }

/-- The two DOM input values read by `DellPaymentMethod.validatePayment`
via `document.querySelector(...)?.value`; `none` models a missing element
(optional chaining yields `undefined`). -/
structure DellDom where
  dellAccountNumber : Option String
  dellPurchaseOrder : Option String
deriving DecidableEq, Repr

/-- `validatePayment` (part_000 lines 133-148): reads both inputs; when
`accountNumber && poNumber` holds (both defined and non-empty, by JS
truthiness) it stores `{accountNumber, poNumber}` into
`this.state.paymentData` and resolves, otherwise it rejects without
touching state. -/
def DellPaymentMethod.validatePayment (m : DellPaymentMethod) (dom : DellDom) :
    PromiseResult Unit × DellPaymentMethod :=
  match dom.dellAccountNumber, dom.dellPurchaseOrder with
  | some accountNumber, some poNumber =>
      if accountNumber = "" ∨ poNumber = "" then
        (PromiseResult.rejected "Please enter both Dell Account Number and PO Number", m)
      else
        (PromiseResult.resolved (),
         { m with state := { m.state with
             paymentData := some { accountNumber := accountNumber, poNumber := poNumber } } })
  | _, _ =>
      (PromiseResult.rejected "Please enter both Dell Account Number and PO Number", m)

/-- `formattedPayload` of the object resolved by
`DellPaymentMethod.submitPayment`. -/
structure DellFormattedPayload where
  method : String
  dell_account_number : String
  purchase_order_number : String
deriving DecidableEq, Repr

/-- `paymentData` of the object resolved by `DellPaymentMethod.submitPayment`. -/
structure DellSubmitPaymentData where
  formattedPayload : DellFormattedPayload
deriving DecidableEq, Repr

/-- The object resolved by `DellPaymentMethod.submitPayment`. -/
structure DellSubmitResult where
  methodId : String
  paymentData : DellSubmitPaymentData
deriving DecidableEq, Repr

/-- `submitPayment` (part_000 lines 150-167): resolves with the formatted
payload when `this.state.paymentData` is set (object truthiness: non-null)
and rejects otherwise.  No state is written. -/
def DellPaymentMethod.submitPayment (m : DellPaymentMethod) :
    PromiseResult DellSubmitResult × DellPaymentMethod :=
  match m.state.paymentData with
  | some pd =>
      (PromiseResult.resolved
        { methodId := m.state.methodId
          paymentData := { formattedPayload :=
            { method := m.state.method
              dell_account_number := pd.accountNumber
              purchase_order_number := pd.poNumber } } }, m)
  | none =>
      (PromiseResult.rejected "Payment submission failed. No payment data provided.", m)

/-! ## Express router (src/unnamed/part_001) -/

/-- HTTP verbs used by the router. -/
inductive HttpMethod where
  | get
  | post
deriving DecidableEq, Repr

/-- One registered Express route. -/
structure Route where
  httpMethod : HttpMethod
  path : String
deriving DecidableEq, Repr

/-- The routes registered on the router in part_001: `router.get` on
`/auth/callback` (line 5), `router.post` on `/process-payment` (line 17)
and `router.post` on `/process-payment-test` (line 45).  These are the
only `router.*` registrations in the file. -/
def routerRoutes : List Route :=
  [ { httpMethod := HttpMethod.get, path := "/auth/callback" },
    { httpMethod := HttpMethod.post, path := "/process-payment" },
    { httpMethod := HttpMethod.post, path := "/process-payment-test" } ]

/-- The `payment_data` object of a payment request.  The handlers only
echo `amount` and `currency`, so both are kept as their JSON renderings. -/
structure PaymentData where
  amount : String
  currency : String
deriving DecidableEq, Repr

/-- The transaction object returned by the (externally provided) payment
processor; only `id` is read. -/
structure Transaction where
  id : String
deriving DecidableEq, Repr

/-- The body of a POST /process-payment request, as destructured by the
handler: `{ payment_data, order_id, context }`. -/
structure ProcessPaymentBody where
  payment_data : Option PaymentData
  order_id : Option String
  context : Option String
deriving DecidableEq, Repr

/-- The JSON body sent on success by the payment handlers. -/
structure SuccessBody where
  status : String
  transaction_id : String
  amount : String
  currency : String
  timestamp : String
deriving DecidableEq, Repr

/-- The JSON body sent by the catch branch of /process-payment. -/
structure ErrorBody where
  status : String
  message : String
deriving DecidableEq, Repr

/-- A response actually sent by a handler: `res.json(...)` (HTTP 200) or
`res.status(400).json(...)`. -/
inductive RouteResponse where
  | ok (body : SuccessBody)
  | badRequest (body : ErrorBody)
deriving DecidableEq, Repr

/-- The try-block of the POST /process-payment handler (part_001 lines
17-42).  `processPayment` is a free identifier in part_001 (it is defined
nowhere in the repository); it is taken as a parameter whose `Except`
result models its returning a transaction or throwing.  The guard throws
`'Missing required fields'` when `!payment_data || !order_id` (object
truthiness for `payment_data`, string truthiness for `order_id`). -/
def processPaymentTry (body : ProcessPaymentBody)
    (processPayment : PaymentData → Except String Transaction)
    (now : String) : Except String SuccessBody :=
  match body.payment_data, jsTruthyStrOpt body.order_id with
  | some pd, true =>
      match processPayment pd with
      | Except.ok transaction =>
          Except.ok { status := "success", transaction_id := transaction.id,
                      amount := pd.amount, currency := pd.currency, timestamp := now }
      | Except.error e => Except.error e
  | _, _ => Except.error "Missing required fields"

/-- The POST /process-payment handler: the try-block's thrown error is
caught and turned into `res.status(400).json({status:'error', message})`. -/
def processPaymentHandler (body : ProcessPaymentBody)
    (processPayment : PaymentData → Except String Transaction)
    (now : String) : RouteResponse :=
  match processPaymentTry body processPayment now with
  | Except.ok b => RouteResponse.ok b
  | Except.error msg => RouteResponse.badRequest { status := "error", message := msg }

/-- The body of a POST /process-payment-test request; the handler only
reads `req.body.payment_data`. -/
structure TestBody where
  payment_data : Option PaymentData
deriving DecidableEq, Repr

/-- The POST /process-payment-test handler (part_001 lines 45-54).  It has
no guard and no try/catch: when `payment_data` is absent, evaluating
`req.body.payment_data.amount` throws a TypeError that escapes the async
handler, so no response is sent (`Except.error`).  Otherwise it sends the
test success body, with `transaction_id = 'TEST_' + Date.now()`. -/
def processPaymentTestHandler (body : TestBody) (nowMs : Nat) (now : String) :
    Except String RouteResponse :=
  match body.payment_data with
  | none => Except.error "TypeError: Cannot read properties of undefined (reading amount)"
  | some pd =>
      Except.ok (RouteResponse.ok
        { status := "success", transaction_id := "TEST_" ++ toString nowMs,
          amount := pd.amount, currency := pd.currency, timestamp := now })

/-! ## Checkout component (src/packages/core/src/app/checkout/Checkout.tsx) -/

/-- The step types sequenced by the checkout (CheckoutStepType is imported
by Checkout.tsx; its enum values are the four wizard steps named by the
spec: customer, shipping, billing, payment). -/
inductive CheckoutStepType where
  | Billing
  | Customer
  | Payment
  | Shipping
deriving DecidableEq, Repr

/-- One entry of `props.steps`.  Of `CheckoutStepStatus` only the fields
consulted by the modelled methods (`type` for lodash `find`, `isActive`
for lodash `findIndex`) are kept. -/
structure CheckoutStepStatus where
  type : CheckoutStepType
  isActive : Bool
deriving DecidableEq, Repr

/-- A JavaScript `Error` object, identified by its message. -/
structure JsError where
  message : String
deriving DecidableEq, Repr

/-- A flash message (opaque to the modelled methods). -/
structure FlashMessage where
  type : String
  message : String
deriving DecidableEq, Repr

/-- A payment-method config held in `state.buttonConfigs` (opaque to the
modelled methods). -/
structure PaymentMethodConfig where
  id : String
deriving DecidableEq, Repr

/-- A consignment; the modelled code only tests presence and length of the
consignments array. -/
structure Consignment where
  id : String
deriving DecidableEq, Repr

/-- `cart.currency`. -/
structure CartCurrency where
  code : String
deriving DecidableEq, Repr

/-- One entry of `cart.lineItems.physicalItems`. -/
structure PhysicalItem where
  name : String
  quantity : Nat
  extendedListPrice : Nat
deriving DecidableEq, Repr

/-- `cart.lineItems`. -/
structure CartLineItems where
  physicalItems : List PhysicalItem
deriving DecidableEq, Repr

/-- The cart fields read by `logOrderDetailsAndNavigate`. -/
structure Cart where
  id : String
  cartAmount : Nat
  currency : CartCurrency
  lineItems : CartLineItems
deriving DecidableEq, Repr

/-- The billing-address fields read by `logOrderDetailsAndNavigate`. -/
structure Address where
  address1 : String
  address2 : Option String
  city : String
  stateOrProvinceCode : String
  countryCode : String
  postalCode : String
  phone : Option String
  firstName : String
  lastName : String
deriving DecidableEq, Repr

/-- The `CheckoutState` interface of Checkout.tsx (lines 105-118), with
every field, so frame effects on the component state are expressible. -/
structure CheckoutState where
  activeStepType : Option CheckoutStepType
  isBillingSameAsShipping : Bool
  customerViewType : Option String
  defaultStepType : Option CheckoutStepType
  error : Option JsError
  flashMessages : Option (List FlashMessage)
  isMultiShippingMode : Bool
  isCartEmpty : Bool
  isRedirecting : Bool
  hasSelectedShippingOptions : Bool
  isSubscribed : Bool
  buttonConfigs : List PaymentMethodConfig
deriving DecidableEq, Repr

/-- The initial component state (Checkout.tsx lines 152-160): the optional
fields are unset and the listed defaults are taken verbatim. -/
def initialCheckoutState : CheckoutState :=
  { activeStepType := none
    isBillingSameAsShipping := true
    customerViewType := none
    defaultStepType := none
    error := none
    flashMessages := none
    isMultiShippingMode := false
    isCartEmpty := false
    isRedirecting := false
    hasSelectedShippingOptions := false
    isSubscribed := false
    buttonConfigs := [] }

/-- The props consulted by the modelled methods: `steps`, `error`, `cart`,
`billingAddress`, `consignments` (all from `WithCheckoutProps`).  The
callback props `clearError` and `analyticsTracker.trackStepCompleted` are
modelled as emitted effects rather than stored functions. -/
structure CheckoutProps where
  steps : List CheckoutStepStatus
  error : Option JsError
  cart : Option Cart
  billingAddress : Option Address
  consignments : Option (List Consignment)
deriving DecidableEq, Repr

/-- The `options` argument of `navigateToStep`. -/
structure NavigateOptions where
  isDefault : Option Bool
deriving DecidableEq, Repr

/-- Truthiness of `options && options.isDefault`. -/
def navOptionsIsDefault : Option NavigateOptions → Bool
  | some o => decide (o.isDefault = some true)
  | none => false

/-- The JSON `address` object of the payment-initiation request body. -/
structure PaymentsAddress where
  address1 : String
  address2 : String
  city : String
  state : String
  country : String
  zipCode : String
  phoneNumber : String
deriving DecidableEq, Repr

/-- One entry of the `products` array of the payment-initiation body. -/
structure ProductEntry where
  productDescription : String
  quantity : String
  productAmount : String
deriving DecidableEq, Repr

/-- The request body built by `logOrderDetailsAndNavigate` (Checkout.tsx
lines 747-777). -/
structure PaymentsRequestBody where
  address : PaymentsAddress
  buid : String
  country : String
  region : String
  currency : String
  successUrl : String
  cancelUrl : String
  clientSessionId : String
  orderDescription : String
  amount : String
  segment : String
  language : String
  salesChannel : String
  companyNumber : String
  products : List ProductEntry
  paymentMode : String
  orderNumber : String
deriving DecidableEq, Repr

/-- Construction of the request body, with `window.location.origin` and
`Date.now()` passed in (`origin`, `nowMs`).  Mirrors lines 747-777:
`address2 || ""`, `phone || "N/A"`, the string literals, the template
strings, and the `toString()` renderings of the numeric cart fields. -/
def buildPaymentsRequestBody (cart : Cart) (billingAddress : Address)
    (origin : String) (nowMs : Nat) : PaymentsRequestBody :=
  { address :=
      { address1 := billingAddress.address1
        address2 := jsOrStr billingAddress.address2 ""
        city := billingAddress.city
        state := billingAddress.stateOrProvinceCode
        country := billingAddress.countryCode
        zipCode := billingAddress.postalCode
        phoneNumber := jsOrStr billingAddress.phone "N/A" }
    buid := "11"
    country := "US"
    region := "US"
    currency := cart.currency.code
    successUrl := origin ++ "/checkout/order-confirmation"
    cancelUrl := origin ++ "/checkout"
    clientSessionId := cart.id
    orderDescription := "Order for " ++ billingAddress.firstName ++ " " ++ billingAddress.lastName
    amount := toString cart.cartAmount
    segment := "dhs"
    language := "EN"
    salesChannel := "US_19"
    companyNumber := "14"
    products := cart.lineItems.physicalItems.map fun item =>
      { productDescription := item.name
        quantity := toString item.quantity
        productAmount := toString item.extendedListPrice }
    paymentMode := "Initial"
    orderNumber := toString nowMs ++ ".11" }

/-- Observable side effects of the modelled Checkout methods, in order of
occurrence. -/
inductive Effect where
  | consoleLog (msg : String)
  | consoleError (msg : String)
  | clearError (e : JsError)
  | trackStepCompleted (t : CheckoutStepType)
  | httpPost (url : String) (body : PaymentsRequestBody)
  | setLocationHref (url : String)
  | formSubmit (action : String)
deriving DecidableEq, Repr

/-- The URL the active implementation posts to (Checkout.tsx line 781). -/
def paymentsEndpointUrl : String := "http://127.0.0.1:3000/api/v1/payments"

/-- `response.data` of the axios call; `redirectUrl` may be absent. -/
structure AxiosData where
  redirectUrl : Option String
deriving DecidableEq, Repr

/-- Outcome of `axios.post`: resolved with a (possibly null) `data`, or
rejected (network/HTTP error), which the code catches. -/
inductive AxiosOutcome where
  | ok (data : Option AxiosData)
  | threw (message : String)
deriving DecidableEq, Repr

/-- `logOrderDetailsAndNavigate` (Checkout.tsx lines 739-809).  The method
returns early with a console error when
`!cart || !billingAddress || !consignments || !consignments.length`.
Otherwise it posts the built body to `paymentsEndpointUrl` (the network is
passed in as `net`); on a resolved response with a truthy
`response.data.redirectUrl` it logs and assigns `window.location.href`;
on any other resolved response it logs a console error; on a rejected
request the catch block is empty (the error is discarded).  The method
never calls `setState`, so the state component is always returned
unchanged. -/
def logOrderDetailsAndNavigate (props : CheckoutProps) (st : CheckoutState)
    (origin : String) (nowMs : Nat) (net : PaymentsRequestBody → AxiosOutcome) :
    CheckoutState × List Effect :=
  match props.cart, props.billingAddress, props.consignments with
  | some cart, some billingAddress, some consignments =>
      if consignments.length = 0 then
        (st, [Effect.consoleError "Missing order details"])
      else
        let requestBody := buildPaymentsRequestBody cart billingAddress origin nowMs
        match net requestBody with
        | AxiosOutcome.threw _ =>
            (st, [Effect.httpPost paymentsEndpointUrl requestBody])
        | AxiosOutcome.ok data =>
            match data with
            | some d =>
                match d.redirectUrl with
                | some u =>
                    if u = "" then
                      (st, [Effect.httpPost paymentsEndpointUrl requestBody,
                            Effect.consoleError "Unexpected response structure:"])
                    else
                      (st, [Effect.httpPost paymentsEndpointUrl requestBody,
                            Effect.consoleLog ("Redirecting to payment portal: " ++ u),
                            Effect.setLocationHref u])
                | none =>
                    (st, [Effect.httpPost paymentsEndpointUrl requestBody,
                          Effect.consoleError "Unexpected response structure:"])
            | none =>
                (st, [Effect.httpPost paymentsEndpointUrl requestBody,
                      Effect.consoleError "Unexpected response structure:"])
  | _, _, _ =>
      (st, [Effect.consoleError "Missing order details"])

/-- The Place Order button rendered by `renderPaymentStep` (Checkout.tsx
lines 519-535) wires its `onClick` to `() => this.logOrderDetailsAndNavigate()`. -/
def placeOrderOnClick : CheckoutProps → CheckoutState → String → Nat →
    (PaymentsRequestBody → AxiosOutcome) → CheckoutState × List Effect :=
  logOrderDetailsAndNavigate

/-- `navigateToStep` (Checkout.tsx lines 840-862): lodash
`find(steps, { type })`; early return when no such step exists or when
`state.activeStepType === step.type`; otherwise `setState` on
`defaultStepType` (when `options && options.isDefault`) or
`activeStepType`, then `clearError(error)` when the `error` prop is set. -/
def navigateToStep (props : CheckoutProps) (st : CheckoutState)
    (stepType : CheckoutStepType) (options : Option NavigateOptions) :
    CheckoutState × List Effect :=
  match List.find? (fun s => decide (s.type = stepType)) props.steps with
  | none => (st, [])
  | some step =>
      if st.activeStepType = some step.type then
        (st, [])
      else
        let st' :=
          if navOptionsIsDefault options then
            { st with defaultStepType := some step.type }
          else
            { st with activeStepType := some step.type }
        match props.error with
        | some e => (st', [Effect.clearError e])
        | none => (st', [])

/-- Lodash `findIndex`: index of the first element satisfying the
predicate, if any. -/
def findIndexAux {α : Type} (p : α → Bool) : List α → Nat → Option Nat
  | [], _ => none
  | x :: xs, i => if p x then some i else findIndexAux p xs (i + 1)

/-- Lodash `findIndex(steps, { isActive: true })` returns -1 when absent;
the absent case is modelled as `none`. -/
def findIndex {α : Type} (p : α → Bool) (l : List α) : Option Nat :=
  findIndexAux p l 0

/-- `navigateToNextIncompleteStep` (Checkout.tsx lines 870-888): finds the
first step with `isActive`; returns when there is none; computes
`previousStep = steps[Math.max(activeStepIndex - 1, 0)]`; calls
`analyticsTracker.trackStepCompleted(previousStep.type)` when that element
exists; then calls `navigateToStep(activeStep.type, options)`. -/
def navigateToNextIncompleteStep (props : CheckoutProps) (st : CheckoutState)
    (options : Option NavigateOptions) : CheckoutState × List Effect :=
  match findIndex (fun s => s.isActive) props.steps with
  | none => (st, [])
  | some activeStepIndex =>
      match props.steps.get? activeStepIndex with
      | none => (st, [])
      | some activeStep =>
          match props.steps.get? (max ((activeStepIndex : Int) - 1) 0).toNat with
          | some previousStep =>
              let r := navigateToStep props st activeStep.type options
              (r.1, Effect.trackStepCompleted previousStep.type :: r.2)
          | none => navigateToStep props st activeStep.type options

/-! ## Claim predicates and concrete instances -/

/-- Whether a run of `logOrderDetailsAndNavigate` submits a form (the
navigation mechanism asserted by the spec): true when the effect trace
contains a `formSubmit`. -/
def navigatesViaSubmittedForm (props : CheckoutProps) (st : CheckoutState)
    (origin : String) (nowMs : Nat) (net : PaymentsRequestBody → AxiosOutcome) : Bool :=
  (logOrderDetailsAndNavigate props st origin nowMs net).2.any fun e =>
    match e with
    | Effect.formSubmit _ => true
    | _ => false

/-- The step type an effect tracks, if it is a `trackStepCompleted`. -/
def trackArg : Effect → Option CheckoutStepType
  | Effect.trackStepCompleted t => some t
  | _ => none

/-- The tracking clause of claim C4 at a given input: if no step is
active, the run leaves the state untouched and emits nothing; otherwise
every `trackStepCompleted` emitted by `navigateToNextIncompleteStep`
carries the type of the step immediately preceding the active step (so in
particular a preceding step exists: the active index is at least 1). -/
def c4TrackingClaimCheck (props : CheckoutProps) (st : CheckoutState)
    (options : Option NavigateOptions) : Bool :=
  match findIndex (fun s => s.isActive) props.steps with
  | none => decide (navigateToNextIncompleteStep props st options = (st, []))
  | some i =>
      (navigateToNextIncompleteStep props st options).2.all fun e =>
        match trackArg e with
        | some t =>
            decide (1 ≤ i) &&
              decide ((props.steps.get? (i - 1)).map CheckoutStepStatus.type = some t)
        | none => true

/-- A concrete cart for evaluating `logOrderDetailsAndNavigate`. -/
def c1Cart : Cart :=
  { id := "cart-1", cartAmount := 100, currency := { code := "USD" },
    lineItems := { physicalItems := [{ name := "Widget", quantity := 1, extendedListPrice := 100 }] } }

/-- A concrete billing address. -/
def c1Address : Address :=
  { address1 := "1 Main St", address2 := none, city := "Austin",
    stateOrProvinceCode := "TX", countryCode := "US", postalCode := "73301",
    phone := some "5550100", firstName := "Ada", lastName := "Lovelace" }

/-- Props with a complete order (cart, billing address, one consignment). -/
def c1Props : CheckoutProps :=
  { steps := [], error := none, cart := some c1Cart, billingAddress := some c1Address,
    consignments := some [{ id := "consignment-1" }] }

/-- A network that resolves with a redirect URL, as the local payments
endpoint would. -/
def c1Net : PaymentsRequestBody → AxiosOutcome :=
  fun _ => AxiosOutcome.ok (some { redirectUrl := some "https://pay.example/portal/1" })

/-- A network whose request rejects. -/
def c10NetThrew : PaymentsRequestBody → AxiosOutcome :=
  fun _ => AxiosOutcome.threw "Network Error"

/-- Props with every order detail missing. -/
def c10EmptyProps : CheckoutProps :=
  { steps := [], error := none, cart := none, billingAddress := none, consignments := none }

/-- Steps whose active step is the first one (customer), for exercising
`navigateToNextIncompleteStep`. -/
def c4Props : CheckoutProps :=
  { steps := [ { type := CheckoutStepType.Customer, isActive := true },
               { type := CheckoutStepType.Shipping, isActive := false } ],
    error := none, cart := none, billingAddress := none, consignments := none }

/-- Props with two inactive steps and a pending error, for exercising
`navigateToStep`. -/
def c5Props : CheckoutProps :=
  { steps := [ { type := CheckoutStepType.Customer, isActive := false },
               { type := CheckoutStepType.Payment, isActive := false } ],
    error := some { message := "boom" }, cart := none, billingAddress := none,
    consignments := none }

/-! ## Helper lemmas -/

theorem findIndexAux_bounds {α : Type} (p : α → Bool) :
    ∀ (l : List α) (j i : Nat), findIndexAux p l j = some i → j ≤ i ∧ i - j < l.length := by
  intro l
  induction l with
  | nil => intro j i h; simp [findIndexAux] at h
  | cons x xs ih =>
      intro j i h
      by_cases hp : p x
      · simp [findIndexAux, hp] at h
        subst h
        exact ⟨Nat.le_refl _, by simp⟩
      · simp [findIndexAux, hp] at h
        have := ih (j + 1) i h
        refine ⟨by omega, ?_⟩
        simp only [List.length_cons]
        omega

theorem findIndex_lt_length {α : Type} (p : α → Bool) (l : List α) (i : Nat)
    (h : findIndex p l = some i) : i < l.length := by
  have := findIndexAux_bounds p l 0 i h
  omega

theorem get?_isSome_of_lt {α : Type} :
    ∀ (l : List α) (i : Nat), i < l.length → (l.get? i).isSome = true := by
  intro l
  induction l with
  | nil => intro i h; simp at h
  | cons x xs ih =>
      intro i h
      cases i with
      | zero => rfl
      | succ n => exact ih n (by simpa using h)

/-! ## Claims -/

/-- Claim C2: the registered 'custom-payment' hooks can never resolve.
For every payment argument, the registered `validatePayment` hook rejects
and the registered `submitPayment` hook rejects: each constructs a fresh
`CustomPaymentMethod` whose `state.paymentData` is null, `validatePayment`
rejects when `paymentData` is null or empty, and `submitPayment` rejects
when `paymentData` is falsy. -/
theorem c2_registered_hooks_always_reject (p : Payment) :
    (CustomPaymentMethod.make none).state.paymentData = none ∧
    registeredCustomPaymentMethod.validatePayment p =
      PromiseResult.rejected "Payment validation failed. Please enter valid payment details." ∧
    registeredCustomPaymentMethod.submitPayment p =
      PromiseResult.rejected "Payment submission failed. No payment data provided." :=
  ⟨rfl, rfl, rfl⟩

/-- Claim C8: for every `CustomPaymentMethod` instance, `validatePayment`
resolves exactly when `state.paymentData` is a non-empty string; in every
other case it rejects with the message
'Payment validation failed. Please enter valid payment details.'; and the
instance's state is left unchanged. -/
theorem c8_validate_payment_iff (m : CustomPaymentMethod) :
    ((m.validatePayment).1 = PromiseResult.resolved () ↔
      ∃ s, m.state.paymentData = some s ∧ 0 < s.length) ∧
    ((m.validatePayment).1 = PromiseResult.resolved () ∨
      (m.validatePayment).1 =
        PromiseResult.rejected "Payment validation failed. Please enter valid payment details.") ∧
    (m.validatePayment).2 = m := by
  cases hpd : m.state.paymentData with
  | none => simp [CustomPaymentMethod.validatePayment, hpd]
  | some s =>
      by_cases hs : 0 < s.length <;>
        simp [CustomPaymentMethod.validatePayment, hpd, hs]

/-- Claim C3 as stated is false: the router does not register exactly two
routes (it registers three). -/
theorem c3_not_two_routes : ¬ (routerRoutes.length = 2) := by decide

/-- Claim C3 amended: the router registers exactly three routes — the two
POST payment endpoints plus the GET auth callback. -/
theorem c3_three_routes :
    routerRoutes.length = 3 ∧
    (routerRoutes.filter (fun r => decide (r.httpMethod = HttpMethod.post))).length = 2 ∧
    (routerRoutes.filter (fun r => decide (r.httpMethod = HttpMethod.get))).length = 1 := by
  decide

/-- Claim C7: a POST /process-payment-test request whose body lacks
`payment_data` makes the handler throw while reading
`payment_data.amount`, so no JSON response is sent — unlike the guarded
/process-payment handler, which answers such a request with a 400 JSON
error body. -/
theorem c7_test_endpoint_unguarded (nowMs : Nat) (now : String)
    (oid ctx : Option String) (f : PaymentData → Except String Transaction) :
    processPaymentTestHandler { payment_data := none } nowMs now =
      Except.error "TypeError: Cannot read properties of undefined (reading amount)" ∧
    (∀ resp, processPaymentTestHandler { payment_data := none } nowMs now ≠ Except.ok resp) ∧
    processPaymentHandler { payment_data := none, order_id := oid, context := ctx } f now =
      RouteResponse.badRequest { status := "error", message := "Missing required fields" } := by
  refine ⟨rfl, ?_, ?_⟩
  · intro resp h
    simp [processPaymentTestHandler] at h
  · simp [processPaymentHandler, processPaymentTry]

/-- Claim C6: the POST /process-payment handler answers 400 with a JSON
error body exactly when `payment_data` is missing, `order_id` is missing,
or payment processing throws; a missing required field yields the message
'Missing required fields'; and on success it answers with a success body
echoing `payment_data.amount` and `payment_data.currency`. -/
theorem c6_process_payment (pd : Option PaymentData) (oid ctx : Option String)
    (f : PaymentData → Except String Transaction) (now : String) :
    ((∃ msg, processPaymentHandler { payment_data := pd, order_id := oid, context := ctx } f now =
        RouteResponse.badRequest { status := "error", message := msg }) ↔
      (pd = none ∨ jsTruthyStrOpt oid = false ∨
        ∃ x e, pd = some x ∧ f x = Except.error e)) ∧
    ((pd = none ∨ jsTruthyStrOpt oid = false) →
      processPaymentHandler { payment_data := pd, order_id := oid, context := ctx } f now =
        RouteResponse.badRequest { status := "error", message := "Missing required fields" }) ∧
    (∀ x t, pd = some x → jsTruthyStrOpt oid = true → f x = Except.ok t →
      processPaymentHandler { payment_data := pd, order_id := oid, context := ctx } f now =
        RouteResponse.ok { status := "success", transaction_id := t.id,
                           amount := x.amount, currency := x.currency, timestamp := now }) := by
  refine ⟨?_, ?_, ?_⟩
  · cases pd with
    | none => simp [processPaymentHandler, processPaymentTry]
    | some x =>
        cases hb : jsTruthyStrOpt oid with
        | false => simp [processPaymentHandler, processPaymentTry, hb]
        | true =>
            cases hf : f x with
            | ok t => simp [processPaymentHandler, processPaymentTry, hb, hf]
            | error e => simp [processPaymentHandler, processPaymentTry, hb, hf]
  · rintro (h | h)
    · subst h; simp [processPaymentHandler, processPaymentTry]
    · cases pd with
      | none => simp [processPaymentHandler, processPaymentTry]
      | some x => simp [processPaymentHandler, processPaymentTry, h]
  · intro x t hx hb hf
    subst hx
    simp [processPaymentHandler, processPaymentTry, hb, hf]

/-- Witness for C6: a well-formed request with a succeeding processor gets
the success body; a request without `payment_data` gets the 400 body. -/
theorem c6_process_payment_witness :
    processPaymentHandler
        { payment_data := some { amount := "100", currency := "USD" },
          order_id := some "ord-1", context := none }
        (fun _ => Except.ok { id := "tx-1" }) "T0" =
      RouteResponse.ok { status := "success", transaction_id := "tx-1",
                         amount := "100", currency := "USD", timestamp := "T0" } ∧
    processPaymentHandler
        { payment_data := none, order_id := some "ord-1", context := none }
        (fun _ => Except.ok { id := "tx-1" }) "T0" =
      RouteResponse.badRequest { status := "error", message := "Missing required fields" } := by
  constructor
  · exact (c6_process_payment (some { amount := "100", currency := "USD" }) (some "ord-1") none
      (fun _ => Except.ok { id := "tx-1" }) "T0").2.2
      { amount := "100", currency := "USD" } { id := "tx-1" } rfl (by decide) rfl
  · exact (c6_process_payment none (some "ord-1") none
      (fun _ => Except.ok { id := "tx-1" }) "T0").2.1 (Or.inl rfl)

/-- Claim C9: for a `DellPaymentMethod` instance, `validatePayment` stores
`{accountNumber, poNumber}` into `state.paymentData` exactly when both
entered values are non-empty, and otherwise rejects leaving state
unchanged; a subsequent `submitPayment` resolves with methodId
'dell_payment' and a `formattedPayload` carrying the stored values, and it
rejects with 'Payment submission failed. No payment data provided.' while
`state.paymentData` is unset. -/
theorem c9_dell_payment_flow (options : Option PaymentOptions) (dom : DellDom) :
    (∀ a p, dom.dellAccountNumber = some a → dom.dellPurchaseOrder = some p →
      a ≠ "" → p ≠ "" →
      ((DellPaymentMethod.make options).validatePayment dom).1 = PromiseResult.resolved () ∧
      ((DellPaymentMethod.make options).validatePayment dom).2.state.paymentData =
        some { accountNumber := a, poNumber := p } ∧
      (((DellPaymentMethod.make options).validatePayment dom).2).submitPayment =
        (PromiseResult.resolved
          { methodId := "dell_payment"
            paymentData := { formattedPayload :=
              { method := "dell-payment", dell_account_number := a,
                purchase_order_number := p } } },
         ((DellPaymentMethod.make options).validatePayment dom).2)) ∧
    ((jsTruthyStrOpt dom.dellAccountNumber = false ∨
        jsTruthyStrOpt dom.dellPurchaseOrder = false) →
      (DellPaymentMethod.make options).validatePayment dom =
        (PromiseResult.rejected "Please enter both Dell Account Number and PO Number",
         DellPaymentMethod.make options)) ∧
    (DellPaymentMethod.make options).submitPayment =
      (PromiseResult.rejected "Payment submission failed. No payment data provided.",
       DellPaymentMethod.make options) := by
  refine ⟨?_, ?_, rfl⟩
  · intro a p ha hp hna hnp
    have hcond : ¬ (a = "" ∨ p = "") := by
      rintro (h | h)
      · exact hna h
      · exact hnp h
    refine ⟨?_, ?_, ?_⟩ <;>
      simp [DellPaymentMethod.validatePayment, ha, hp, hcond,
            DellPaymentMethod.submitPayment, DellPaymentMethod.make]
  · intro h
    cases ha : dom.dellAccountNumber with
    | none => simp [DellPaymentMethod.validatePayment, ha]
    | some a =>
        cases hp : dom.dellPurchaseOrder with
        | none => simp [DellPaymentMethod.validatePayment, ha, hp]
        | some p =>
            have hcond : a = "" ∨ p = "" := by
              rcases h with h | h
              · left
                simpa [jsTruthyStrOpt, ha] using h
              · right
                simpa [jsTruthyStrOpt, hp] using h
            simp [DellPaymentMethod.validatePayment, ha, hp, hcond]

/-- Witness for C9: after validating with account 'ACCT-1' and PO 'PO-1',
the payment data is stored and `submitPayment` resolves with the formatted
payload; validation with a missing account input rejects and leaves the
fresh instance unchanged. -/
theorem c9_dell_payment_flow_witness :
    ((DellPaymentMethod.make none).validatePayment
        { dellAccountNumber := some "ACCT-1", dellPurchaseOrder := some "PO-1" }).2.state.paymentData =
      some { accountNumber := "ACCT-1", poNumber := "PO-1" } ∧
    (((DellPaymentMethod.make none).validatePayment
        { dellAccountNumber := some "ACCT-1", dellPurchaseOrder := some "PO-1" }).2).submitPayment =
      (PromiseResult.resolved
        { methodId := "dell_payment"
          paymentData := { formattedPayload :=
            { method := "dell-payment", dell_account_number := "ACCT-1",
              purchase_order_number := "PO-1" } } },
       ((DellPaymentMethod.make none).validatePayment
          { dellAccountNumber := some "ACCT-1", dellPurchaseOrder := some "PO-1" }).2) ∧
    (DellPaymentMethod.make none).validatePayment
        { dellAccountNumber := none, dellPurchaseOrder := some "PO-1" } =
      (PromiseResult.rejected "Please enter both Dell Account Number and PO Number",
       DellPaymentMethod.make none) := by
  have h1 := (c9_dell_payment_flow none
    { dellAccountNumber := some "ACCT-1", dellPurchaseOrder := some "PO-1" }).1
    "ACCT-1" "PO-1" rfl rfl (by decide) (by decide)
  have h2 := (c9_dell_payment_flow none
    { dellAccountNumber := none, dellPurchaseOrder := some "PO-1" }).2.1 (Or.inl rfl)
  exact ⟨h1.2.1, h1.2.2, h2⟩

/-- Claim C5: `navigateToStep(type, options)` leaves the state unchanged
and clears no error when no step of that type exists or the active step
type already equals it; otherwise it updates exactly one of
`defaultStepType` (when `options.isDefault`) or `activeStepType` to that
type, leaves every other state field unchanged, and clears the pending
error prop when one is set. -/
theorem c5_navigate_to_step (props : CheckoutProps) (st : CheckoutState)
    (stepType : CheckoutStepType) (options : Option NavigateOptions) :
    ((List.find? (fun s => decide (s.type = stepType)) props.steps = none ∨
        st.activeStepType = some stepType) →
      navigateToStep props st stepType options = (st, [])) ∧
    (∀ step, List.find? (fun s => decide (s.type = stepType)) props.steps = some step →
      st.activeStepType ≠ some stepType →
      (navigateToStep props st stepType options).1 =
        (if navOptionsIsDefault options then { st with defaultStepType := some stepType }
         else { st with activeStepType := some stepType }) ∧
      (navigateToStep props st stepType options).2 =
        (match props.error with
         | some e => [Effect.clearError e]
         | none => [])) := by
  have hfind : ∀ step, List.find? (fun s => decide (s.type = stepType)) props.steps = some step →
      step.type = stepType := by
    intro step h
    have hp := List.find?_some h
    simpa using hp
  constructor
  · rintro (h | h)
    · simp [navigateToStep, h]
    · cases hf : List.find? (fun s => decide (s.type = stepType)) props.steps with
      | none => simp [navigateToStep, hf]
      | some step =>
          have ht := hfind step hf
          simp [navigateToStep, hf, ht, h]
  · intro step hf hne
    have ht := hfind step hf
    have hne' : ¬ (st.activeStepType = some step.type) := by
      rw [ht]; exact hne
    cases he : props.error <;>
      cases hd : navOptionsIsDefault options <;>
        simp [navigateToStep, hf, hne', hne, he, hd, ht]

/-- Witness for C5: navigating the initial state to the payment step with
a pending error prop sets `activeStepType` (only) and clears the error. -/
theorem c5_navigate_to_step_witness :
    (navigateToStep c5Props initialCheckoutState CheckoutStepType.Payment none).1 =
      { initialCheckoutState with activeStepType := some CheckoutStepType.Payment } ∧
    (navigateToStep c5Props initialCheckoutState CheckoutStepType.Payment none).2 =
      [Effect.clearError { message := "boom" }] := by
  have h := (c5_navigate_to_step c5Props initialCheckoutState CheckoutStepType.Payment none).2
    { type := CheckoutStepType.Payment, isActive := false } (by decide) (by decide)
  exact ⟨h.1, h.2⟩

/-- Claim C4 as stated is false: with the customer step active at index 0
(so no step precedes the active step), `navigateToNextIncompleteStep`
still calls `trackStepCompleted` — with the active step's own type,
because `steps[Math.max(0 - 1, 0)]` is the active step itself. -/
theorem c4_first_step_tracking_counterexample :
    c4TrackingClaimCheck c4Props initialCheckoutState none = false ∧
    findIndex (fun s => s.isActive) c4Props.steps = some 0 ∧
    Effect.trackStepCompleted CheckoutStepType.Customer ∈
      (navigateToNextIncompleteStep c4Props initialCheckoutState none).2 := by
  refine ⟨by decide, by decide, by decide⟩

/-- Claim C4 amended: if no step is active, `navigateToNextIncompleteStep`
changes nothing; otherwise it performs `navigateToStep` on the active
step's type and calls `trackStepCompleted` with the type of the step at
index `max(activeIndex - 1, 0)` — the immediately preceding step when the
active step is not first, and the active step itself when it is first. -/
theorem c4_navigate_next_incomplete (props : CheckoutProps) (st : CheckoutState)
    (options : Option NavigateOptions) :
    (findIndex (fun s => s.isActive) props.steps = none →
      navigateToNextIncompleteStep props st options = (st, [])) ∧
    (∀ i a, findIndex (fun s => s.isActive) props.steps = some i →
      props.steps.get? i = some a →
      ∃ p, props.steps.get? (i - 1) = some p ∧
        navigateToNextIncompleteStep props st options =
          ((navigateToStep props st a.type options).1,
           Effect.trackStepCompleted p.type :: (navigateToStep props st a.type options).2)) := by
  constructor
  · intro h
    simp [navigateToNextIncompleteStep, h]
  · intro i a hfi hga
    have hi : i < props.steps.length := findIndex_lt_length _ _ _ hfi
    have hi1 : i - 1 < props.steps.length := lt_of_le_of_lt (Nat.sub_le i 1) hi
    have hsome := get?_isSome_of_lt props.steps (i - 1) hi1
    obtain ⟨p, hp⟩ := Option.isSome_iff_exists.mp hsome
    refine ⟨p, hp, ?_⟩
    have hmax : (max ((i : Int) - 1) 0).toNat = i - 1 := by omega
    have hga' : props.steps[i]? = some a := by
      rw [← List.get?_eq_getElem?]; exact hga
    have hp' : props.steps[i - 1]? = some p := by
      rw [← List.get?_eq_getElem?]; exact hp
    simp [navigateToNextIncompleteStep, hfi, hga', hmax, hp']

/-- Witness for the amended C4: on the concrete steps with the customer
step active first, the tracked step is the entry at index 0 (the active
customer step). -/
theorem c4_navigate_next_incomplete_witness :
    ∃ p, c4Props.steps.get? (0 - 1) = some p ∧
      navigateToNextIncompleteStep c4Props initialCheckoutState none =
        ((navigateToStep c4Props initialCheckoutState CheckoutStepType.Customer none).1,
         Effect.trackStepCompleted p.type ::
           (navigateToStep c4Props initialCheckoutState CheckoutStepType.Customer none).2) := by
  exact (c4_navigate_next_incomplete c4Props initialCheckoutState none).2 0
    { type := CheckoutStepType.Customer, isActive := true } (by decide) (by decide)

/-- Claim C1 as stated is false: on a complete order whose payment
initiation resolves with a redirect URL, clicking Place Order
(`placeOrderOnClick`, i.e. `logOrderDetailsAndNavigate`) navigates by
assigning `window.location.href`, and its effect trace submits no form at
all — the form-based portal redirect exists only in commented-out code. -/
theorem c1_no_form_submit_counterexample :
    navigatesViaSubmittedForm c1Props initialCheckoutState "https://store.example" 1234 c1Net
      = false ∧
    Effect.setLocationHref "https://pay.example/portal/1" ∈
      (placeOrderOnClick c1Props initialCheckoutState "https://store.example" 1234 c1Net).2 := by
  have htrace : (placeOrderOnClick c1Props initialCheckoutState
      "https://store.example" 1234 c1Net).2 =
      [Effect.httpPost paymentsEndpointUrl
         (buildPaymentsRequestBody c1Cart c1Address "https://store.example" 1234),
       Effect.consoleLog ("Redirecting to payment portal: " ++ "https://pay.example/portal/1"),
       Effect.setLocationHref "https://pay.example/portal/1"] := rfl
  have htrace' : (logOrderDetailsAndNavigate c1Props initialCheckoutState
      "https://store.example" 1234 c1Net).2 =
      [Effect.httpPost paymentsEndpointUrl
         (buildPaymentsRequestBody c1Cart c1Address "https://store.example" 1234),
       Effect.consoleLog ("Redirecting to payment portal: " ++ "https://pay.example/portal/1"),
       Effect.setLocationHref "https://pay.example/portal/1"] := htrace
  constructor
  · simp [navigatesViaSubmittedForm, htrace']
  · rw [htrace]
    simp

/-- Claim C1 amended: clicking Place Order runs
`logOrderDetailsAndNavigate`, which POSTs the order payload to the local
endpoint http://127.0.0.1:3000/api/v1/payments via axios and, when the
response data carries a (truthy) `redirectUrl`, navigates the browser
there by assigning `window.location.href`; no form is constructed or
submitted. -/
theorem c1_axios_redirect (props : CheckoutProps) (st : CheckoutState) (origin : String)
    (nowMs : Nat) (net : PaymentsRequestBody → AxiosOutcome)
    (cart : Cart) (ba : Address) (cons : List Consignment) (u : String)
    (h1 : props.cart = some cart) (h2 : props.billingAddress = some ba)
    (h3 : props.consignments = some cons) (h4 : cons ≠ [])
    (h5 : net (buildPaymentsRequestBody cart ba origin nowMs) =
      AxiosOutcome.ok (some { redirectUrl := some u }))
    (h6 : u ≠ "") :
    placeOrderOnClick props st origin nowMs net =
      (st, [Effect.httpPost paymentsEndpointUrl (buildPaymentsRequestBody cart ba origin nowMs),
            Effect.consoleLog ("Redirecting to payment portal: " ++ u),
            Effect.setLocationHref u]) ∧
    (∀ a, Effect.formSubmit a ∉ (placeOrderOnClick props st origin nowMs net).2) := by
  have hlen : ¬ (cons.length = 0) := by
    simpa [List.length_eq_zero] using h4
  have heq : placeOrderOnClick props st origin nowMs net =
      (st, [Effect.httpPost paymentsEndpointUrl (buildPaymentsRequestBody cart ba origin nowMs),
            Effect.consoleLog ("Redirecting to payment portal: " ++ u),
            Effect.setLocationHref u]) := by
    simp [placeOrderOnClick, logOrderDetailsAndNavigate, h1, h2, h3, hlen, h5, h6]
  refine ⟨heq, ?_⟩
  intro a
  rw [heq]
  simp

/-- Witness for the amended C1: the concrete complete order is posted to
the local endpoint and the browser is sent to the returned redirect URL. -/
theorem c1_axios_redirect_witness :
    placeOrderOnClick c1Props initialCheckoutState "https://store.example" 1234 c1Net =
      (initialCheckoutState,
       [Effect.httpPost paymentsEndpointUrl
          (buildPaymentsRequestBody c1Cart c1Address "https://store.example" 1234),
        Effect.consoleLog ("Redirecting to payment portal: " ++ "https://pay.example/portal/1"),
        Effect.setLocationHref "https://pay.example/portal/1"]) := by
  exact (c1_axios_redirect c1Props initialCheckoutState "https://store.example" 1234 c1Net
    c1Cart c1Address [{ id := "consignment-1" }] "https://pay.example/portal/1"
    rfl rfl rfl (by decide) rfl (by decide)).1

/-- Claim C10: `logOrderDetailsAndNavigate` never changes component state;
when cart, billing address or consignments are missing, or consignments
are empty, it only logs a console error — no HTTP request, no navigation;
when the payment-initiation request rejects, the empty catch block
discards the error (the trace is just the attempted POST: no error state,
no modal, no redirect); and when the response carries no truthy
`redirectUrl`, it only logs a console error after the POST — again no
redirect. -/
theorem c10_log_order_guard_and_silent_errors (props : CheckoutProps) (st : CheckoutState)
    (origin : String) (nowMs : Nat) (net : PaymentsRequestBody → AxiosOutcome) :
    (logOrderDetailsAndNavigate props st origin nowMs net).1 = st ∧
    ((props.cart = none ∨ props.billingAddress = none ∨ props.consignments = none ∨
        props.consignments = some []) →
      (logOrderDetailsAndNavigate props st origin nowMs net).2 =
        [Effect.consoleError "Missing order details"]) ∧
    (∀ cart ba cons, props.cart = some cart → props.billingAddress = some ba →
      props.consignments = some cons → cons ≠ [] →
      (∀ msg, net (buildPaymentsRequestBody cart ba origin nowMs) = AxiosOutcome.threw msg →
        (logOrderDetailsAndNavigate props st origin nowMs net).2 =
          [Effect.httpPost paymentsEndpointUrl (buildPaymentsRequestBody cart ba origin nowMs)]) ∧
      (∀ data, net (buildPaymentsRequestBody cart ba origin nowMs) = AxiosOutcome.ok data →
        jsTruthyStrOpt (data.bind AxiosData.redirectUrl) = false →
        (logOrderDetailsAndNavigate props st origin nowMs net).2 =
          [Effect.httpPost paymentsEndpointUrl (buildPaymentsRequestBody cart ba origin nowMs),
           Effect.consoleError "Unexpected response structure:"])) := by
  refine ⟨?_, ?_, ?_⟩
  · cases hc : props.cart with
    | none => simp [logOrderDetailsAndNavigate, hc]
    | some cart =>
        cases hb : props.billingAddress with
        | none => simp [logOrderDetailsAndNavigate, hc, hb]
        | some ba =>
            cases hcons : props.consignments with
            | none => simp [logOrderDetailsAndNavigate, hc, hb, hcons]
            | some cons =>
                by_cases hlen : cons.length = 0
                · simp [logOrderDetailsAndNavigate, hc, hb, hcons, hlen]
                · cases hn : net (buildPaymentsRequestBody cart ba origin nowMs) with
                  | threw m =>
                      simp [logOrderDetailsAndNavigate, hc, hb, hcons, hlen, hn]
                  | ok data =>
                      cases data with
                      | none => simp [logOrderDetailsAndNavigate, hc, hb, hcons, hlen, hn]
                      | some d =>
                          cases hr : d.redirectUrl with
                          | none =>
                              simp [logOrderDetailsAndNavigate, hc, hb, hcons, hlen, hn, hr]
                          | some u =>
                              by_cases hu : u = "" <;>
                                simp [logOrderDetailsAndNavigate, hc, hb, hcons, hlen, hn, hr, hu]
  · intro h
    cases hc : props.cart with
    | none => simp [logOrderDetailsAndNavigate, hc]
    | some cart =>
        cases hb : props.billingAddress with
        | none => simp [logOrderDetailsAndNavigate, hc, hb]
        | some ba =>
            cases hcons : props.consignments with
            | none => simp [logOrderDetailsAndNavigate, hc, hb, hcons]
            | some cons =>
                have hnil : cons = [] := by
                  rcases h with h | h | h | h
                  · rw [hc] at h; exact absurd h (by simp)
                  · rw [hb] at h; exact absurd h (by simp)
                  · rw [hcons] at h; exact absurd h (by simp)
                  · rw [hcons] at h
                    exact Option.some_injective _ h
                subst hnil
                simp [logOrderDetailsAndNavigate, hc, hb, hcons]
  · intro cart ba cons h1 h2 h3 h4
    have hlen : ¬ (cons.length = 0) := by
      simpa [List.length_eq_zero] using h4
    constructor
    · intro msg hn
      simp [logOrderDetailsAndNavigate, h1, h2, h3, hlen, hn]
    · intro data hn htruthy
      cases data with
      | none => simp [logOrderDetailsAndNavigate, h1, h2, h3, hlen, hn]
      | some d =>
          cases hr : d.redirectUrl with
          | none => simp [logOrderDetailsAndNavigate, h1, h2, h3, hlen, hn, hr]
          | some u =>
              have hu : u = "" := by
                have := htruthy
                simp [jsTruthyStrOpt, hr] at this
                exact this
              simp [logOrderDetailsAndNavigate, h1, h2, h3, hlen, hn, hr, hu]

/-- Witness for C10: with everything missing the run only logs a console
error; with a complete order and a rejecting request, the run's trace is
just the attempted POST. -/
theorem c10_log_order_witness :
    (logOrderDetailsAndNavigate c10EmptyProps initialCheckoutState
        "https://store.example" 1234 c10NetThrew).2 =
      [Effect.consoleError "Missing order details"] ∧
    (logOrderDetailsAndNavigate c1Props initialCheckoutState
        "https://store.example" 1234 c10NetThrew).2 =
      [Effect.httpPost paymentsEndpointUrl
         (buildPaymentsRequestBody c1Cart c1Address "https://store.example" 1234)] := by
  constructor
  · exact (c10_log_order_guard_and_silent_errors c10EmptyProps initialCheckoutState
      "https://store.example" 1234 c10NetThrew).2.1 (Or.inl rfl)
  · exact ((c10_log_order_guard_and_silent_errors c1Props initialCheckoutState
      "https://store.example" 1234 c10NetThrew).2.2 c1Cart c1Address
      [{ id := "consignment-1" }] rfl rfl rfl (by decide)).1 "Network Error" rfl

/-- Witness for C7 at concrete inputs: the unguarded test handler throws
while the guarded handler answers 400. -/
theorem c7_test_endpoint_unguarded_witness :
    processPaymentTestHandler { payment_data := none } 1234 "T0" =
      Except.error "TypeError: Cannot read properties of undefined (reading amount)" ∧
    processPaymentHandler
        { payment_data := none, order_id := some "ord-1", context := none }
        (fun _ => Except.ok { id := "tx-1" }) "T0" =
      RouteResponse.badRequest { status := "error", message := "Missing required fields" } := by
  have h := c7_test_endpoint_unguarded 1234 "T0" (some "ord-1") none
    (fun _ => Except.ok { id := "tx-1" })
  exact ⟨h.1, h.2.2⟩
